import Mathlib

/-!
# Verification of the protein dataset-selection core

Shallow embedding of the two source modules of the repository:

* `src/src/data/sources.py` — `PDBDataSource` with `get_structure`,
  `get_function` and `validate_structure`;
* `src/src/data/dataset.py` — `ProteinDatasetRegistry` with
  `load_registry`, `save_registry` and `add_protein`.

Effects are made explicit:

* the network/cache/parse pipeline of `get_structure` is abstracted as a
  pure oracle `fetch : String → Except String StructureModel`; a
  `.error msg` value stands for a Python exception whose `str()` is `msg`
  (e.g. the `ValueError` raised on a non-200 download, or a parser error);
* Python `float` values (resolutions) are embedded as `ℚ`, and the string
  interpolation `f"{x}"` of a number as `ratStr`/`toString`;
* `pd.Timestamp.now().isoformat()` is an explicit `now : String` argument;
* the registry mapping (a Python `dict`) is an association list in
  insertion order with unique keys.
-/

set_option autoImplicit false

/-- One residue of a parsed structure; `hetfield` embeds `residue.id[0]`
(`" "` marks a standard amino acid, `"W"` water, `"H_..."` heteroatoms). -/
structure Residue where
  hetfield : String
  deriving DecidableEq, Repr

/-- One chain: a list of residues. -/
structure Chain where
  residues : List Residue
  deriving DecidableEq, Repr

/-- One model: a list of chains. -/
structure StructModel where
  chains : List Chain
  deriving DecidableEq, Repr

/-- The header metadata dictionary of a parsed structure; `none` embeds a
missing key (so `header.get(k, default)` is `Option.getD`). The
`resolution` entry may itself be `None` in the source, which coincides
with the missing-key case under `header.get("resolution", None)`. -/
structure Header where
  name : Option String
  resolution : Option ℚ
  structure_method : Option String
  keywords : Option (List String)
  deriving DecidableEq, Repr

/-- The in-memory decoded structure returned by the parsing collaborator:
a model → chain → residue hierarchy plus a header. -/
structure StructureModel where
  models : List StructModel
  header : Header
  deriving DecidableEq, Repr

/-- The dictionary returned by `PDBDataSource.get_function`. -/
structure FunctionInfo where
  id : String
  description : String
  resolution : Option ℚ
  structure_method : String
  keywords : List String
  ec_numbers : List String
  deriving DecidableEq, Repr

/-- The second component of `validate_structure`'s return value: either
the failure dictionary `{"reason": msg}` or the success dictionary
`{"resolution": r, "amino_acid_count": n, "has_ec_number": b}`. -/
inductive Detail where
  | reason (msg : String)
  | info (resolution : ℚ) (amino_acid_count : ℕ) (has_ec_number : Bool)
  deriving DecidableEq, Repr

/-- Embeds Python's `f"{x}"` on an embedded float (a rational). -/
def ratStr (q : ℚ) : String :=
  toString q

/-- Embeds Python's `f"{x}"` on an optional float (`None` prints as
`"None"`). -/
def optRatStr (q : Option ℚ) : String :=
  match q with
  | none => "None"
  | some r => ratStr r

/-- `strContains s t` holds when `t` occurs contiguously inside `s`. -/
def strContains (s t : String) : Prop :=
  ∃ a b, s = a ++ t ++ b

namespace PDBDataSource

/-- `PDBDataSource.get_structure`: lowercases the id, then runs the
cache/download/parse pipeline, embedded as the pure oracle `fetch`
(keyed by the lowercased id, exactly as the cache path
`{protein_id}.pdb` is). -/
def get_structure (fetch : String → Except String StructureModel)
    (protein_id : String) : Except String StructureModel :=
  fetch protein_id.toLower

/-- `PDBDataSource.get_function`: fetch + parse, then extract header
fields with the source's defaults (`""` for strings, `[]` for keywords,
`None` for resolution); `ec_numbers` is always `[]`. -/
def get_function (fetch : String → Except String StructureModel)
    (protein_id : String) : Except String FunctionInfo := do
  let s ← get_structure fetch protein_id
  let header := s.header
  pure {
    id := protein_id
    description := header.name.getD ""
    resolution := header.resolution
    structure_method := header.structure_method.getD ""
    keywords := header.keywords.getD []
    ec_numbers := [] }

/-- The residue-counting loop of `validate_structure`: every chain of
every model, counting residues with `residue.id[0] == ' '`. -/
def count_amino_acids (s : StructureModel) : ℕ :=
  s.models.foldl (fun acc m =>
    m.chains.foldl (fun acc2 c =>
      c.residues.foldl (fun acc3 r =>
        if r.hetfield = " " then acc3 + 1 else acc3) acc2) acc) 0

/-- `PDBDataSource.validate_structure`. The whole body sits inside
`try/except`, so the function is total: any exception from fetch/parse
becomes `(false, {"reason": "Error: " ++ msg})`. Otherwise the checks
run in source order: resolution (`None` or strictly above the maximum
fails), then the residue count against `min_length`/`max_length`. -/
def validate_structure (fetch : String → Except String StructureModel)
    (protein_id : String) (max_resolution : ℚ) (min_length : ℤ)
    (max_length : ℤ) : Bool × Detail :=
  match get_structure fetch protein_id with
  | .error e => (false, .reason ("Error: " ++ e))
  | .ok s =>
    match get_function fetch protein_id with
    | .error e => (false, .reason ("Error: " ++ e))
    | .ok function_info =>
      let resolution := function_info.resolution
      match resolution with
      | none =>
        (false, .reason ("Resolution " ++ optRatStr none ++ " > " ++
          ratStr max_resolution))
      | some r =>
        if r > max_resolution then
          (false, .reason ("Resolution " ++ ratStr r ++ " > " ++
            ratStr max_resolution))
        else
          let amino_acid_count := count_amino_acids s
          if (amino_acid_count : ℤ) < min_length then
            (false, .reason ("Too short: " ++ toString amino_acid_count ++
              " < " ++ toString min_length))
          else if (amino_acid_count : ℤ) > max_length then
            (false, .reason ("Too long: " ++ toString amino_acid_count ++
              " > " ++ toString max_length))
          else
            (true, .info r amino_acid_count false)

end PDBDataSource

/-- The `selection_criteria` dictionary stored on the registry at
construction time. -/
structure SelectionCriteria where
  max_resolution : ℚ
  min_length : ℤ
  max_length : ℤ
  require_ec : Bool
  deriving DecidableEq, Repr

/-- The values hard-wired in `ProteinDatasetRegistry.__init__`. -/
def default_selection_criteria : SelectionCriteria :=
  { max_resolution := mkRat 5 2
    min_length := 50
    max_length := 300
    require_ec := true }

/-- The data-source collaborator as `add_protein` sees it: both calls may
raise (embedded as `.error`), and the registry's `try` block covers both. -/
structure DataSource where
  validate_structure : String → ℚ → ℤ → ℤ → Except String (Bool × Detail)
  get_function : String → Except String FunctionInfo

/-- The concrete `PDBDataSource` instance passed to the registry:
`validate_structure` is total (its body catches every exception), and
`get_function` can raise whatever the fetch/parse pipeline raises. -/
def pdb_source (fetch : String → Except String StructureModel) : DataSource :=
  { validate_structure := fun protein_id mr mn mx =>
      .ok (PDBDataSource.validate_structure fetch protein_id mr mn mx)
    get_function := PDBDataSource.get_function fetch }

/-- One persisted evaluation record. `Option` fields embed keys that may
be absent from the Python dict: the success branch of `add_protein`
populates `validation_info` and `function_info` and has no `error` key;
the `except` branch populates `error` only. -/
structure Evaluation where
  protein_id : String
  meets_criteria : Bool
  validation_info : Option Detail
  function_info : Option FunctionInfo
  error : Option String
  evaluation_date : String
  deriving DecidableEq, Repr

/-- The in-memory registry mapping (`self.proteins`): an association
list in insertion order; a Python dict never holds a key twice. -/
abbrev Registry : Type :=
  List (String × Evaluation)

/-- Dictionary lookup, `self.proteins[protein_id]` / the
`protein_id in self.proteins` test. -/
def rlookup : Registry → String → Option Evaluation
  | [], _ => none
  | (k, v) :: rest, key => if k = key then some v else rlookup rest key

/-- The keys of the registry, in insertion order. -/
def rkeys (r : Registry) : List String :=
  r.map Prod.fst

/-- How many entries of the registry carry the given key (1 for a
present key in any state reachable through dict operations). -/
def count_key (r : Registry) (key : String) : ℕ :=
  r.countP (fun p => decide (p.1 = key))

/-- Well-formedness: no key occurs twice — every Python dict satisfies
this, and every registry state built by `add_protein` preserves it. -/
def RegistryWF (r : Registry) : Prop :=
  (rkeys r).Nodup

namespace ProteinDatasetRegistry

/-- `ProteinDatasetRegistry.add_protein`, with the mutable state
(`self.proteins`) threaded explicitly and the evaluation timestamp
passed as `now`. Returns the evaluation together with the new state.
The id is lowercased first; a present id returns the stored record
unchanged; otherwise `validate_structure` and `get_function` run inside
`try`, and any exception is recorded as a failed evaluation with the
exception message under `error`. -/
def add_protein (ds : DataSource) (crit : SelectionCriteria)
    (proteins : Registry) (protein_id0 : String) (now : String) :
    Evaluation × Registry :=
  let protein_id := protein_id0.toLower
  match rlookup proteins protein_id with
  | some ev => (ev, proteins)
  | none =>
    match ds.validate_structure protein_id crit.max_resolution
        crit.min_length crit.max_length with
    | .error e =>
      let evaluation : Evaluation :=
        { protein_id := protein_id
          meets_criteria := false
          validation_info := none
          function_info := none
          error := some e
          evaluation_date := now }
      (evaluation, proteins ++ [(protein_id, evaluation)])
    | .ok (is_valid, validation_info) =>
      match ds.get_function protein_id with
      | .error e =>
        let evaluation : Evaluation :=
          { protein_id := protein_id
            meets_criteria := false
            validation_info := none
            function_info := none
            error := some e
            evaluation_date := now }
        (evaluation, proteins ++ [(protein_id, evaluation)])
      | .ok function_info =>
        let evaluation : Evaluation :=
          { protein_id := protein_id
            meets_criteria := is_valid
            validation_info := some validation_info
            function_info := some function_info
            error := none
            evaluation_date := now }
        (evaluation, proteins ++ [(protein_id, evaluation)])

/-- A sequence of `add_protein` calls on one registry instance (the
spec's batch-evaluation scenario), oldest first. -/
def add_batch (ds : DataSource) (crit : SelectionCriteria)
    (proteins : Registry) (ids : List String) (now : String) : Registry :=
  ids.foldl (fun acc protein_id => (add_protein ds crit acc protein_id now).2) proteins

end ProteinDatasetRegistry

/-- The JSON trees `json.dump` writes and `json.load` reads back; the
registry file holds one such tree. Numbers are embedded as rationals. -/
inductive Json where
  | null
  | bool (b : Bool)
  | str (s : String)
  | num (q : ℚ)
  | arr (elems : List Json)
  | obj (fields : List (String × Json))

/-- JSON-object key lookup. -/
def jLookup : List (String × Json) → String → Option Json
  | [], _ => none
  | (k, v) :: rest, key => if k = key then some v else jLookup rest key

/-- Reads a JSON string. -/
def jStr? : Json → Option String
  | .str s => some s
  | _ => none

/-- Reads a JSON boolean. -/
def jBool? : Json → Option Bool
  | .bool b => some b
  | _ => none

/-- Reads a JSON number as a natural count. -/
def jNat? : Json → Option ℕ
  | .num q => if q.den = 1 ∧ 0 ≤ q.num then some q.num.toNat else none
  | _ => none

/-- Reads a JSON number as a rational. -/
def jRat? : Json → Option ℚ
  | .num q => some q
  | _ => none

/-- Reads a nullable JSON number (`None` serialises as `null`). -/
def jOptRat? : Json → Option (Option ℚ)
  | .null => some none
  | .num q => some (some q)
  | _ => none

/-- Reads a JSON array of strings. -/
def jStrList? : Json → Option (List String)
  | .arr xs => xs.mapM jStr?
  | _ => none

/-- Reads an optional object entry: an absent key decodes to `none`, a
present key must decode. -/
def jField? {α : Type} (j : Option Json) (dec : Json → Option α) :
    Option (Option α) :=
  match j with
  | none => some none
  | some x => (dec x).map some

/-- Serialises a `validation_info` dictionary. -/
def detail_to_json : Detail → Json
  | .reason msg => .obj [("reason", .str msg)]
  | .info r n b =>
    .obj [("resolution", .num r), ("amino_acid_count", .num (n : ℚ)),
          ("has_ec_number", .bool b)]

/-- Parses a `validation_info` dictionary. -/
def detail_of_json : Json → Option Detail
  | .obj fields =>
    match jLookup fields "reason" with
    | some j => (jStr? j).map Detail.reason
    | none => do
      let r ← jRat? (← jLookup fields "resolution")
      let n ← jNat? (← jLookup fields "amino_acid_count")
      let b ← jBool? (← jLookup fields "has_ec_number")
      pure (.info r n b)
  | _ => none

/-- Serialises a `function_info` dictionary. -/
def function_info_to_json (f : FunctionInfo) : Json :=
  .obj [("id", .str f.id), ("description", .str f.description),
        ("resolution", match f.resolution with | none => .null | some q => .num q),
        ("structure_method", .str f.structure_method),
        ("keywords", .arr (f.keywords.map Json.str)),
        ("ec_numbers", .arr (f.ec_numbers.map Json.str))]

/-- Parses a `function_info` dictionary. -/
def function_info_of_json : Json → Option FunctionInfo
  | .obj fields => do
    let i ← jStr? (← jLookup fields "id")
    let d ← jStr? (← jLookup fields "description")
    let r ← jOptRat? (← jLookup fields "resolution")
    let m ← jStr? (← jLookup fields "structure_method")
    let ks ← jStrList? (← jLookup fields "keywords")
    let es ← jStrList? (← jLookup fields "ec_numbers")
    pure ⟨i, d, r, m, ks, es⟩
  | _ => none

/-- Serialises one evaluation record; optional fields contribute a key
only when present, exactly as the two dict shapes built by
`add_protein` do. -/
def evaluation_to_json (e : Evaluation) : Json :=
  .obj ([("protein_id", .str e.protein_id),
         ("meets_criteria", .bool e.meets_criteria)]
    ++ (match e.validation_info with
        | none => []
        | some d => [("validation_info", detail_to_json d)])
    ++ (match e.function_info with
        | none => []
        | some f => [("function_info", function_info_to_json f)])
    ++ (match e.error with
        | none => []
        | some msg => [("error", .str msg)])
    ++ [("evaluation_date", .str e.evaluation_date)])

/-- Parses one evaluation record. -/
def evaluation_of_json : Json → Option Evaluation
  | .obj fields => do
    let pid ← jStr? (← jLookup fields "protein_id")
    let mc ← jBool? (← jLookup fields "meets_criteria")
    let vi ← jField? (jLookup fields "validation_info") detail_of_json
    let fi ← jField? (jLookup fields "function_info") function_info_of_json
    let er ← jField? (jLookup fields "error") jStr?
    let ed ← jStr? (← jLookup fields "evaluation_date")
    pure ⟨pid, mc, vi, fi, er, ed⟩
  | _ => none

/-- Parses the top-level registry object, entry by entry. -/
def registry_of_json_entries : List (String × Json) → Option Registry
  | [] => some []
  | (k, j) :: rest => do
    let e ← evaluation_of_json j
    let r ← registry_of_json_entries rest
    pure ((k, e) :: r)

/-- Parses the registry file contents. -/
def registry_of_json : Json → Option Registry
  | .obj fields => registry_of_json_entries fields
  | _ => none

namespace ProteinDatasetRegistry

/-- `ProteinDatasetRegistry.save_registry`: serialises the full
in-memory mapping and overwrites the backing file with it; the result
is the new file contents (as a parsed JSON tree). -/
def save_registry (proteins : Registry) : Json :=
  .obj (proteins.map fun p => (p.1, evaluation_to_json p.2))

/-- `ProteinDatasetRegistry.load_registry`, run against the backing
file at construction time: `none` embeds an absent file (first run) and
yields the empty mapping; otherwise the file's JSON tree is parsed back
into the typed registry mapping (`none` result = a file that does not
hold evaluation records, which `save_registry` never writes). -/
def load_registry (store : Option Json) : Option Registry :=
  match store with
  | none => some []
  | some j => registry_of_json j

end ProteinDatasetRegistry

/-- The shape every record stored by `add_protein` has: either the
normal-path shape (`validation_info` and `function_info` present, no
`error` key) or the exception-path shape (`error` present, the two info
keys absent, `meets_criteria = false`). -/
def EvaluationShape (ev : Evaluation) : Prop :=
  (ev.validation_info.isSome ∧ ev.function_info.isSome ∧ ev.error = none) ∨
  (ev.validation_info = none ∧ ev.function_info = none ∧
   ev.error.isSome ∧ ev.meets_criteria = false)

/-- A concrete parsed structure for witnesses: resolution 2.0, one model
with one chain of 60 standard residues plus one water. -/
def demo_structure : StructureModel :=
  { models := [⟨[⟨List.replicate 60 ⟨" "⟩ ++ [⟨"W"⟩]⟩]⟩]
    header := ⟨some "LYSOZYME", some 2, some "x-ray", some ["HYDROLASE"]⟩ }

/-- A concrete fetch oracle for witnesses: every id downloads and
parses to `demo_structure`. -/
def demo_fetch : String → Except String StructureModel :=
  fun _ => .ok demo_structure

/-- A concrete failing fetch oracle for witnesses, embedding the
`ValueError` text `get_structure` raises on an unsuccessful download. -/
def demo_fetch_err : String → Except String StructureModel :=
  fun _ => .error "Failed to download PDB: 9bad"

/-- The concrete data source used by witnesses. -/
def demo_source : DataSource :=
  pdb_source demo_fetch

/-- The concrete data source whose fetch/parse pipeline always raises. -/
def demo_source_err : DataSource :=
  pdb_source demo_fetch_err

/-- A parsed structure whose header carries no resolution entry. -/
def demo_structure_nores : StructureModel :=
  { models := [⟨[⟨List.replicate 60 ⟨" "⟩⟩]⟩]
    header := ⟨some "APO", none, some "nmr", some []⟩ }

/-- A constant fetch oracle returning `demo_structure_nores`. -/
def demo_fetch_nores : String → Except String StructureModel :=
  fun _ => .ok demo_structure_nores

/-! ## Helper lemmas: lowercasing -/

theorem char_ofNat_toNat (n : ℕ) (h : Nat.isValidChar n) :
    (Char.ofNat n).toNat = n := by
  unfold Char.ofNat
  rw [dif_pos h]
  unfold Char.ofNatAux Char.toNat
  simp [UInt32.toNat, BitVec.toNat_ofNatLt]

theorem char_toLower_idem (c : Char) : c.toLower.toLower = c.toLower := by
  unfold Char.toLower
  by_cases h : c.toNat ≥ 65 ∧ c.toNat ≤ 90
  · rw [if_pos h]
    have hv : Nat.isValidChar (c.toNat + 32) := Or.inl (by omega)
    have ht : (Char.ofNat (c.toNat + 32)).toNat = c.toNat + 32 :=
      char_ofNat_toNat _ hv
    rw [if_neg (by omega)]
  · rw [if_neg h, if_neg h]

theorem string_toLower_idem (s : String) : s.toLower.toLower = s.toLower := by
  unfold String.toLower
  rw [String.map_eq, String.map_eq]
  congr 1
  rw [List.map_map]
  exact List.map_congr_left (fun c _ => char_toLower_idem c)

/-! ## Helper lemmas: the registry association list -/

theorem rlookup_append_of_none {r : Registry} {k : String} (v : Evaluation)
    (h : rlookup r k = none) : rlookup (r ++ [(k, v)]) k = some v := by
  induction r with
  | nil => simp [rlookup]
  | cons p rest ih =>
    obtain ⟨k0, v0⟩ := p
    by_cases hk : k0 = k
    · simp [rlookup, hk] at h
    · simp only [List.cons_append, rlookup, if_neg hk] at h ⊢
      exact ih h

theorem rlookup_append_of_some {r : Registry} {k : String} {v : Evaluation}
    (l : Registry) (h : rlookup r k = some v) :
    rlookup (r ++ l) k = some v := by
  induction r with
  | nil => simp [rlookup] at h
  | cons p rest ih =>
    obtain ⟨k0, v0⟩ := p
    by_cases hk : k0 = k
    · simp only [List.cons_append, rlookup, if_pos hk] at h ⊢
      exact h
    · simp only [List.cons_append, rlookup, if_neg hk] at h ⊢
      exact ih h

theorem rlookup_eq_none_iff {r : Registry} {k : String} :
    rlookup r k = none ↔ k ∉ rkeys r := by
  induction r with
  | nil => simp [rlookup, rkeys]
  | cons p rest ih =>
    obtain ⟨k0, v0⟩ := p
    unfold rkeys
    rw [List.map_cons]
    simp only [List.mem_cons, not_or]
    by_cases hk : k0 = k
    · simp [rlookup, hk]
    · simp only [rlookup, if_neg hk]
      unfold rkeys at ih
      rw [ih]
      constructor
      · intro h
        exact ⟨fun he => hk he.symm, h⟩
      · intro h
        exact h.2

theorem rkeys_append (r l : Registry) : rkeys (r ++ l) = rkeys r ++ rkeys l := by
  unfold rkeys
  simp

theorem count_key_eq_zero_iff {r : Registry} {k : String} :
    count_key r k = 0 ↔ k ∉ rkeys r := by
  unfold count_key rkeys
  rw [List.countP_eq_zero]
  constructor
  · intro h hmem
    obtain ⟨p, hp, hpk⟩ := List.mem_map.mp hmem
    have := h p hp
    simp [hpk] at this
  · intro h p hp
    simp only [decide_eq_true_eq]
    intro hpk
    exact h (List.mem_map.mpr ⟨p, hp, hpk⟩)

theorem count_key_append_self (r : Registry) (k : String) (v : Evaluation) :
    count_key (r ++ [(k, v)]) k = count_key r k + 1 := by
  unfold count_key
  rw [List.countP_append]
  simp

theorem count_key_eq_one_of_wf {r : Registry} {k : String} {v : Evaluation}
    (hwf : RegistryWF r) (h : rlookup r k = some v) : count_key r k = 1 := by
  induction r with
  | nil => simp [rlookup] at h
  | cons p rest ih =>
    obtain ⟨k0, v0⟩ := p
    unfold RegistryWF rkeys at hwf
    rw [List.map_cons, List.nodup_cons] at hwf
    by_cases hk : k0 = k
    · subst hk
      have hz : count_key rest k0 = 0 := count_key_eq_zero_iff.mpr hwf.1
      unfold count_key at hz ⊢
      rw [List.countP_cons]
      simp [hz]
    · simp only [rlookup, if_neg hk] at h
      have := ih hwf.2 h
      unfold count_key at this ⊢
      rw [List.countP_cons]
      simp [hk, this]

theorem registryWF_append {r : Registry} {k : String} (v : Evaluation)
    (hwf : RegistryWF r) (h : rlookup r k = none) :
    RegistryWF (r ++ [(k, v)]) := by
  unfold RegistryWF
  rw [rkeys_append]
  rw [List.nodup_append]
  refine ⟨hwf, by simp [rkeys], ?_⟩
  intro a ha hb
  simp [rkeys] at hb
  subst hb
  exact rlookup_eq_none_iff.mp h ha

/-! ## Helper lemmas: `add_protein` case analysis -/

namespace ProteinDatasetRegistry

theorem add_protein_of_mem {ds : DataSource} {crit : SelectionCriteria}
    {r : Registry} {protein_id0 now : String} {ev : Evaluation}
    (h : rlookup r protein_id0.toLower = some ev) :
    add_protein ds crit r protein_id0 now = (ev, r) := by
  unfold add_protein
  simp [h]

theorem add_protein_validate_error {ds : DataSource} {crit : SelectionCriteria}
    {r : Registry} {protein_id0 now e : String}
    (h : rlookup r protein_id0.toLower = none)
    (hv : ds.validate_structure protein_id0.toLower crit.max_resolution
      crit.min_length crit.max_length = .error e) :
    add_protein ds crit r protein_id0 now =
      (⟨protein_id0.toLower, false, none, none, some e, now⟩,
       r ++ [(protein_id0.toLower,
         ⟨protein_id0.toLower, false, none, none, some e, now⟩)]) := by
  unfold add_protein
  simp [h, hv]

theorem add_protein_function_error {ds : DataSource} {crit : SelectionCriteria}
    {r : Registry} {protein_id0 now e : String} {b : Bool} {d : Detail}
    (h : rlookup r protein_id0.toLower = none)
    (hv : ds.validate_structure protein_id0.toLower crit.max_resolution
      crit.min_length crit.max_length = .ok (b, d))
    (hf : ds.get_function protein_id0.toLower = .error e) :
    add_protein ds crit r protein_id0 now =
      (⟨protein_id0.toLower, false, none, none, some e, now⟩,
       r ++ [(protein_id0.toLower,
         ⟨protein_id0.toLower, false, none, none, some e, now⟩)]) := by
  unfold add_protein
  simp [h, hv, hf]

theorem add_protein_ok {ds : DataSource} {crit : SelectionCriteria}
    {r : Registry} {protein_id0 now : String} {b : Bool} {d : Detail}
    {f : FunctionInfo}
    (h : rlookup r protein_id0.toLower = none)
    (hv : ds.validate_structure protein_id0.toLower crit.max_resolution
      crit.min_length crit.max_length = .ok (b, d))
    (hf : ds.get_function protein_id0.toLower = .ok f) :
    add_protein ds crit r protein_id0 now =
      (⟨protein_id0.toLower, b, some d, some f, none, now⟩,
       r ++ [(protein_id0.toLower,
         ⟨protein_id0.toLower, b, some d, some f, none, now⟩)]) := by
  unfold add_protein
  simp [h, hv, hf]

theorem add_protein_lookup (ds : DataSource) (crit : SelectionCriteria)
    (r : Registry) (protein_id0 now : String) :
    rlookup (add_protein ds crit r protein_id0 now).2 protein_id0.toLower
      = some (add_protein ds crit r protein_id0 now).1 := by
  cases h : rlookup r protein_id0.toLower with
  | some ev =>
    rw [add_protein_of_mem h]
    exact h
  | none =>
    cases hv : ds.validate_structure protein_id0.toLower crit.max_resolution
        crit.min_length crit.max_length with
    | error e =>
      rw [add_protein_validate_error h hv]
      exact rlookup_append_of_none _ h
    | ok vr =>
      obtain ⟨b, d⟩ := vr
      cases hf : ds.get_function protein_id0.toLower with
      | error e =>
        rw [add_protein_function_error h hv hf]
        exact rlookup_append_of_none _ h
      | ok f =>
        rw [add_protein_ok h hv hf]
        exact rlookup_append_of_none _ h

theorem add_protein_snd_cases (ds : DataSource) (crit : SelectionCriteria)
    (r : Registry) (protein_id0 now : String) :
    (add_protein ds crit r protein_id0 now).2 = r ∨
    (rlookup r protein_id0.toLower = none ∧
     (add_protein ds crit r protein_id0 now).2
       = r ++ [(protein_id0.toLower, (add_protein ds crit r protein_id0 now).1)]) := by
  cases h : rlookup r protein_id0.toLower with
  | some ev =>
    rw [add_protein_of_mem h]
    exact .inl rfl
  | none =>
    refine .inr ⟨rfl, ?_⟩
    cases hv : ds.validate_structure protein_id0.toLower crit.max_resolution
        crit.min_length crit.max_length with
    | error e =>
      rw [add_protein_validate_error h hv]
    | ok vr =>
      obtain ⟨b, d⟩ := vr
      cases hf : ds.get_function protein_id0.toLower with
      | error e =>
        rw [add_protein_function_error h hv hf]
      | ok f =>
        rw [add_protein_ok h hv hf]

theorem add_protein_wf {ds : DataSource} {crit : SelectionCriteria}
    {r : Registry} {protein_id0 now : String} (hwf : RegistryWF r) :
    RegistryWF (add_protein ds crit r protein_id0 now).2 := by
  rcases add_protein_snd_cases ds crit r protein_id0 now with h | ⟨hn, h⟩
  · rw [h]
    exact hwf
  · rw [h]
    exact registryWF_append _ hwf hn

theorem add_protein_preserves_lookup {ds : DataSource} {crit : SelectionCriteria}
    {r : Registry} {protein_id0 now k : String} {v : Evaluation}
    (h : rlookup r k = some v) :
    rlookup (add_protein ds crit r protein_id0 now).2 k = some v := by
  rcases add_protein_snd_cases ds crit r protein_id0 now with h2 | ⟨hn, h2⟩
  · rw [h2]
    exact h
  · rw [h2]
    exact rlookup_append_of_some _ h

theorem add_protein_keys_sub {ds : DataSource} {crit : SelectionCriteria}
    {r : Registry} {protein_id0 now k : String}
    (hk : k ∈ rkeys (add_protein ds crit r protein_id0 now).2) :
    k ∈ rkeys r ∨ k = protein_id0.toLower := by
  rcases add_protein_snd_cases ds crit r protein_id0 now with h | ⟨hn, h⟩
  · rw [h] at hk
    exact .inl hk
  · rw [h, rkeys_append] at hk
    rcases List.mem_append.mp hk with h1 | h1
    · exact .inl h1
    · unfold rkeys at h1
      simp at h1
      exact .inr h1

theorem add_protein_fst_shape (ds : DataSource) (crit : SelectionCriteria)
    (r : Registry) (protein_id0 now : String)
    (h : rlookup r protein_id0.toLower = none) :
    (∃ b vi fi, (add_protein ds crit r protein_id0 now).1
        = ⟨protein_id0.toLower, b, some vi, some fi, none, now⟩) ∨
    (∃ msg, (add_protein ds crit r protein_id0 now).1
        = ⟨protein_id0.toLower, false, none, none, some msg, now⟩) := by
  cases hv : ds.validate_structure protein_id0.toLower crit.max_resolution
      crit.min_length crit.max_length with
  | error e =>
    rw [add_protein_validate_error h hv]
    exact .inr ⟨e, rfl⟩
  | ok vr =>
    obtain ⟨b, d⟩ := vr
    cases hf : ds.get_function protein_id0.toLower with
    | error e =>
      rw [add_protein_function_error h hv hf]
      exact .inr ⟨e, rfl⟩
    | ok f =>
      rw [add_protein_ok h hv hf]
      exact .inl ⟨b, d, f, rfl⟩

end ProteinDatasetRegistry

/-! ## Helper lemmas: sequences of `add_protein` calls -/

namespace ProteinDatasetRegistry

theorem add_batch_nil (ds : DataSource) (crit : SelectionCriteria)
    (r : Registry) (now : String) : add_batch ds crit r [] now = r := rfl

theorem add_batch_cons (ds : DataSource) (crit : SelectionCriteria)
    (r : Registry) (a : String) (ids : List String) (now : String) :
    add_batch ds crit r (a :: ids) now
      = add_batch ds crit (add_protein ds crit r a now).2 ids now := rfl

theorem add_batch_preserves_lookup {k : String} {v : Evaluation}
    (ds : DataSource) (crit : SelectionCriteria) (now : String) :
    ∀ (ids : List String) (r : Registry), rlookup r k = some v →
      rlookup (add_batch ds crit r ids now) k = some v := by
  intro ids
  induction ids with
  | nil =>
    intro r h
    exact h
  | cons a rest ih =>
    intro r h
    rw [add_batch_cons]
    exact ih _ (add_protein_preserves_lookup h)

theorem add_batch_mem_isSome (ds : DataSource) (crit : SelectionCriteria)
    (now : String) :
    ∀ (ids : List String) (r : Registry) (id2 : String), id2 ∈ ids →
      (rlookup (add_batch ds crit r ids now) id2.toLower).isSome = true := by
  intro ids
  induction ids with
  | nil =>
    intro r id2 h
    simp at h
  | cons a rest ih =>
    intro r id2 hmem
    rw [add_batch_cons]
    rcases List.mem_cons.mp hmem with h | h
    · subst h
      have h1 := add_protein_lookup ds crit r id2 now
      rw [add_batch_preserves_lookup ds crit now rest _ h1]
      rfl
    · exact ih _ id2 h

theorem add_batch_keys_lower (ds : DataSource) (crit : SelectionCriteria)
    (now : String) :
    ∀ (ids : List String) (r : Registry), (∀ k ∈ rkeys r, k.toLower = k) →
      ∀ k ∈ rkeys (add_batch ds crit r ids now), k.toLower = k := by
  intro ids
  induction ids with
  | nil =>
    intro r h
    exact h
  | cons a rest ih =>
    intro r h
    rw [add_batch_cons]
    refine ih _ ?_
    intro k hk
    rcases add_protein_keys_sub hk with h1 | h1
    · exact h k h1
    · subst h1
      exact string_toLower_idem a

end ProteinDatasetRegistry

/-! ## Helper lemmas: JSON round-trip -/

theorem jStrList_map_roundtrip (xs : List String) :
    (xs.map Json.str).mapM jStr? = some xs := by
  induction xs with
  | nil => rfl
  | cons a rest ih =>
    rw [List.map_cons, List.mapM_cons, ih]
    rfl

theorem jStrList_roundtrip (xs : List String) :
    jStrList? (.arr (xs.map Json.str)) = some xs := by
  unfold jStrList?
  exact jStrList_map_roundtrip xs

theorem detail_roundtrip (d : Detail) :
    detail_of_json (detail_to_json d) = some d := by
  cases d with
  | reason msg => rfl
  | info r n b =>
    unfold detail_to_json detail_of_json
    simp [jLookup, jRat?, jNat?, jBool?, Rat.den_natCast, Rat.num_natCast]

theorem function_info_roundtrip (f : FunctionInfo) :
    function_info_of_json (function_info_to_json f) = some f := by
  obtain ⟨i, d, r, m, ks, es⟩ := f
  cases r with
  | none =>
    simp [function_info_to_json, function_info_of_json, jLookup, jStr?,
      jOptRat?, jStrList_roundtrip]
  | some q =>
    simp [function_info_to_json, function_info_of_json, jLookup, jStr?,
      jOptRat?, jStrList_roundtrip]

theorem evaluation_roundtrip (e : Evaluation) :
    evaluation_of_json (evaluation_to_json e) = some e := by
  obtain ⟨pid, mc, vi, fi, er, ed⟩ := e
  cases vi <;> cases fi <;> cases er <;>
    simp [evaluation_to_json, evaluation_of_json, jLookup, jStr?, jBool?,
      jField?, detail_roundtrip, function_info_roundtrip]

theorem registry_entries_roundtrip (r : Registry) :
    registry_of_json_entries (r.map fun p => (p.1, evaluation_to_json p.2))
      = some r := by
  induction r with
  | nil => rfl
  | cons p rest ih =>
    obtain ⟨k, e⟩ := p
    rw [List.map_cons]
    unfold registry_of_json_entries
    rw [evaluation_roundtrip, ih]
    rfl

/-! ## Claim theorems -/

/-- C1: calling `add_protein` a second time in sequence returns the
identical evaluation record the first call returned and leaves the
state unchanged, without re-validating — the second call is stated
against an arbitrary data source and criteria record, so it cannot
have consulted either — and the registry holds exactly one entry for
the lowercased id. -/
theorem add_protein_idempotent (ds ds2 : DataSource)
    (crit crit2 : SelectionCriteria) (r : Registry)
    (protein_id0 now now2 : String) (hwf : RegistryWF r) :
    ProteinDatasetRegistry.add_protein ds2 crit2
        (ProteinDatasetRegistry.add_protein ds crit r protein_id0 now).2
        protein_id0 now2
      = ProteinDatasetRegistry.add_protein ds crit r protein_id0 now ∧
    count_key (ProteinDatasetRegistry.add_protein ds crit r protein_id0 now).2
        protein_id0.toLower = 1 := by
  constructor
  · have h := ProteinDatasetRegistry.add_protein_lookup ds crit r protein_id0 now
    rw [ProteinDatasetRegistry.add_protein_of_mem h]
  · rcases ProteinDatasetRegistry.add_protein_snd_cases ds crit r protein_id0 now
      with h | ⟨hn, h⟩
    · have h1 := ProteinDatasetRegistry.add_protein_lookup ds crit r protein_id0 now
      rw [h] at h1 ⊢
      exact count_key_eq_one_of_wf hwf h1
    · rw [h, count_key_append_self]
      have h0 : count_key r protein_id0.toLower = 0 :=
        count_key_eq_zero_iff.mpr (rlookup_eq_none_iff.mp hn)
      omega

/-- Witness for C1 at a concrete input. -/
theorem add_protein_idempotent_witness :
    ProteinDatasetRegistry.add_protein demo_source default_selection_criteria
        (ProteinDatasetRegistry.add_protein demo_source
          default_selection_criteria [] "1LYZ" "t1").2 "1LYZ" "t2"
      = ProteinDatasetRegistry.add_protein demo_source
          default_selection_criteria [] "1LYZ" "t1" ∧
    count_key (ProteinDatasetRegistry.add_protein demo_source
        default_selection_criteria [] "1LYZ" "t1").2 "1LYZ".toLower = 1 :=
  add_protein_idempotent demo_source demo_source default_selection_criteria
    default_selection_criteria [] "1LYZ" "t1" "t2" (by simp [RegistryWF, rkeys])

/-- C2: an exception raised by the fetch/parse pipeline inside
`validate_structure` is caught and turned into a failed result whose
reason string contains the exception message; the embedded function is
total (its return type is `Bool × Detail`, not `Except`), so it never
propagates an exception to its caller. -/
theorem validate_structure_catches_exceptions
    (fetch : String → Except String StructureModel)
    (protein_id : String) (max_resolution : ℚ) (min_length max_length : ℤ)
    (msg : String) (h : fetch protein_id.toLower = .error msg) :
    PDBDataSource.validate_structure fetch protein_id max_resolution
        min_length max_length
      = (false, .reason ("Error: " ++ msg)) ∧
    strContains ("Error: " ++ msg) msg := by
  constructor
  · unfold PDBDataSource.validate_structure PDBDataSource.get_structure
    rw [h]
  · exact ⟨"Error: ", "", by simp⟩

/-- Witness for C2 at a concrete input. -/
theorem validate_structure_catches_exceptions_witness :
    PDBDataSource.validate_structure demo_fetch_err "9BAD" (mkRat 5 2) 50 300
      = (false, .reason ("Error: " ++ "Failed to download PDB: 9bad")) ∧
    strContains ("Error: " ++ "Failed to download PDB: 9bad")
      "Failed to download PDB: 9bad" :=
  validate_structure_catches_exceptions demo_fetch_err "9BAD" (mkRat 5 2) 50 300
    "Failed to download PDB: 9bad" rfl

/-- C10: the evaluation returned by `add_protein` is exactly the record
stored under the lowercased id in the resulting registry state — on the
cached path, the success path, and the exception path alike. -/
theorem add_protein_returns_stored_record (ds : DataSource)
    (crit : SelectionCriteria) (r : Registry) (protein_id0 now : String) :
    rlookup (ProteinDatasetRegistry.add_protein ds crit r protein_id0 now).2
        protein_id0.toLower
      = some (ProteinDatasetRegistry.add_protein ds crit r protein_id0 now).1 :=
  ProteinDatasetRegistry.add_protein_lookup ds crit r protein_id0 now

/-- C3: when the function-summary step (or any step after validation
inside the `try` block) raises for an id not yet recorded, `add_protein`
catches the exception, stores `{meets_criteria: false, error: msg}` under
the lowercased id, returns exactly that record instead of raising, and
every id of any subsequent batch still gets evaluated and recorded. -/
theorem add_protein_catches_function_summary_error (ds : DataSource)
    (crit : SelectionCriteria) (r : Registry) (protein_id0 now msg : String)
    (vr : Bool × Detail)
    (h : rlookup r protein_id0.toLower = none)
    (hv : ds.validate_structure protein_id0.toLower crit.max_resolution
      crit.min_length crit.max_length = .ok vr)
    (hf : ds.get_function protein_id0.toLower = .error msg) :
    (ProteinDatasetRegistry.add_protein ds crit r protein_id0 now).1
        = ⟨protein_id0.toLower, false, none, none, some msg, now⟩ ∧
    (ProteinDatasetRegistry.add_protein ds crit r protein_id0 now).2
        = r ++ [(protein_id0.toLower,
            ⟨protein_id0.toLower, false, none, none, some msg, now⟩)] ∧
    ∀ (ids : List String) (id2 : String), id2 ∈ ids →
      (rlookup (ProteinDatasetRegistry.add_batch ds crit
          (ProteinDatasetRegistry.add_protein ds crit r protein_id0 now).2
          ids now) id2.toLower).isSome = true := by
  obtain ⟨b, d⟩ := vr
  have heq := @ProteinDatasetRegistry.add_protein_function_error ds crit r
    protein_id0 now msg b d h hv hf
  refine ⟨by rw [heq], by rw [heq], ?_⟩
  intro ids id2 hmem
  exact ProteinDatasetRegistry.add_batch_mem_isSome ds crit now ids _ id2 hmem

/-- Witness for C3 at a concrete input, with the batch conjunct
instantiated at a two-element batch. -/
theorem add_protein_catches_function_summary_error_witness :
    (ProteinDatasetRegistry.add_protein demo_source_err
        default_selection_criteria [] "9bad" "t").1
      = ⟨"9bad".toLower, false, none, none,
          some "Failed to download PDB: 9bad", "t"⟩ ∧
    (rlookup (ProteinDatasetRegistry.add_batch demo_source_err
        default_selection_criteria
        (ProteinDatasetRegistry.add_protein demo_source_err
          default_selection_criteria [] "9bad" "t").2
        ["1lyz", "2bad"] "t") "2bad".toLower).isSome = true :=
  ⟨(add_protein_catches_function_summary_error demo_source_err
      default_selection_criteria [] "9bad" "t" "Failed to download PDB: 9bad"
      (false, .reason ("Error: " ++ "Failed to download PDB: 9bad")) rfl rfl
      rfl).1,
   (add_protein_catches_function_summary_error demo_source_err
      default_selection_criteria [] "9bad" "t" "Failed to download PDB: 9bad"
      (false, .reason ("Error: " ++ "Failed to download PDB: 9bad")) rfl rfl
      rfl).2.2 ["1lyz", "2bad"] "2bad" (by simp)⟩

/-- Characterisation of `validate_structure` once the fetch/parse
pipeline has produced a structure: the result is the source's
resolution-then-length check chain. -/
theorem validate_structure_of_ok
    {fetch : String → Except String StructureModel} {protein_id : String}
    {s : StructureModel} (hs : fetch protein_id.toLower = .ok s)
    (mr : ℚ) (mn mx : ℤ) :
    PDBDataSource.validate_structure fetch protein_id mr mn mx =
      match s.header.resolution with
      | none => (false, .reason ("Resolution None > " ++ ratStr mr))
      | some r =>
        if r > mr then
          (false, .reason ("Resolution " ++ ratStr r ++ " > " ++ ratStr mr))
        else if (PDBDataSource.count_amino_acids s : ℤ) < mn then
          (false, .reason ("Too short: " ++
            toString (PDBDataSource.count_amino_acids s) ++ " < " ++
            toString mn))
        else if (PDBDataSource.count_amino_acids s : ℤ) > mx then
          (false, .reason ("Too long: " ++
            toString (PDBDataSource.count_amino_acids s) ++ " > " ++
            toString mx))
        else (true, .info r (PDBDataSource.count_amino_acids s) false) := by
  unfold PDBDataSource.validate_structure PDBDataSource.get_function
    PDBDataSource.get_structure
  rw [hs]
  rfl

/-- Characterisation of `validate_structure` with the header resolution
known: the result is the resolution test followed by the length
checks. -/
theorem validate_structure_of_res
    {fetch : String → Except String StructureModel} {protein_id : String}
    {s : StructureModel} {res : ℚ}
    (hs : fetch protein_id.toLower = .ok s)
    (hres : s.header.resolution = some res) (mr : ℚ) (mn mx : ℤ) :
    PDBDataSource.validate_structure fetch protein_id mr mn mx =
      if res > mr then
        (false, .reason ("Resolution " ++ ratStr res ++ " > " ++ ratStr mr))
      else if (PDBDataSource.count_amino_acids s : ℤ) < mn then
        (false, .reason ("Too short: " ++
          toString (PDBDataSource.count_amino_acids s) ++ " < " ++
          toString mn))
      else if (PDBDataSource.count_amino_acids s : ℤ) > mx then
        (false, .reason ("Too long: " ++
          toString (PDBDataSource.count_amino_acids s) ++ " > " ++
          toString mx))
      else (true, .info res (PDBDataSource.count_amino_acids s) false) := by
  rw [validate_structure_of_ok hs mr mn mx, hres]

/-- C5: with a successfully fetched structure, a resolution exactly equal
to `max_resolution` passes the resolution check (the outcome is then
decided entirely by the length check), a strictly greater resolution
fails with a reason citing the offending value and the threshold, and a
missing (`None`) resolution fails for every threshold. -/
theorem resolution_boundary (fetch : String → Except String StructureModel)
    (protein_id : String) (s : StructureModel) (max_resolution : ℚ)
    (min_length max_length : ℤ)
    (hs : fetch protein_id.toLower = .ok s) :
    (s.header.resolution = some max_resolution →
      PDBDataSource.validate_structure fetch protein_id max_resolution
          min_length max_length
        = if (PDBDataSource.count_amino_acids s : ℤ) < min_length then
            (false, .reason ("Too short: " ++
              toString (PDBDataSource.count_amino_acids s) ++ " < " ++
              toString min_length))
          else if (PDBDataSource.count_amino_acids s : ℤ) > max_length then
            (false, .reason ("Too long: " ++
              toString (PDBDataSource.count_amino_acids s) ++ " > " ++
              toString max_length))
          else
            (true, .info max_resolution
              (PDBDataSource.count_amino_acids s) false)) ∧
    (∀ res : ℚ, s.header.resolution = some res → res > max_resolution →
      PDBDataSource.validate_structure fetch protein_id max_resolution
          min_length max_length
        = (false, .reason ("Resolution " ++ ratStr res ++ " > " ++
            ratStr max_resolution)) ∧
      strContains ("Resolution " ++ ratStr res ++ " > " ++
        ratStr max_resolution) (ratStr res) ∧
      strContains ("Resolution " ++ ratStr res ++ " > " ++
        ratStr max_resolution) (ratStr max_resolution)) ∧
    (s.header.resolution = none →
      PDBDataSource.validate_structure fetch protein_id max_resolution
          min_length max_length
        = (false, .reason ("Resolution None > " ++ ratStr max_resolution))) := by
  have hval := validate_structure_of_ok hs max_resolution min_length max_length
  refine ⟨?_, ?_, ?_⟩
  · intro hres
    rw [hval, hres]
    exact if_neg (lt_irrefl max_resolution)
  · intro res hres hgt
    rw [hval, hres]
    refine ⟨if_pos hgt, ?_, ?_⟩
    · exact ⟨"Resolution ", " > " ++ ratStr max_resolution,
        by simp [String.append_assoc]⟩
    · exact ⟨"Resolution " ++ ratStr res ++ " > ", "",
        by simp [String.append_assoc]⟩
  · intro hres
    rw [hval, hres]

/-- Witness for C5 at concrete inputs: the equal-resolution case, the
exceeding-resolution case, and the missing-resolution case. -/
theorem resolution_boundary_witness :
    PDBDataSource.validate_structure demo_fetch "1lyz" 2 50 300
      = (true, .info 2 60 false) ∧
    PDBDataSource.validate_structure demo_fetch "1lyz" (mkRat 3 2) 50 300
      = (false, .reason ("Resolution " ++ ratStr 2 ++ " > " ++
          ratStr (mkRat 3 2))) ∧
    PDBDataSource.validate_structure demo_fetch_nores "1lyz" 2 50 300
      = (false, .reason ("Resolution None > " ++ ratStr 2)) := by
  refine ⟨?_, ?_, ?_⟩
  · have h := (resolution_boundary demo_fetch "1lyz" demo_structure 2
      50 300 rfl).1 rfl
    rw [h]
    decide
  · exact ((resolution_boundary demo_fetch "1lyz" demo_structure (mkRat 3 2)
      50 300 rfl).2.1 2 rfl (by decide)).1
  · exact (resolution_boundary demo_fetch_nores "1lyz" demo_structure_nores 2
      50 300 rfl).2.2 rfl

/-- C6: with a fetched structure that passes the resolution check, a
standard-amino-acid count exactly equal to `min_length` or to
`max_length` passes the length check (validation succeeds), a count of
`min_length - 1` fails with a "Too short" reason, and a count of
`max_length + 1` fails with a "Too long" reason. -/
theorem length_boundary (fetch : String → Except String StructureModel)
    (protein_id : String) (s : StructureModel) (max_resolution res : ℚ)
    (min_length max_length : ℤ)
    (hs : fetch protein_id.toLower = .ok s)
    (hres : s.header.resolution = some res)
    (hok : ¬ res > max_resolution)
    (hmm : min_length ≤ max_length) :
    ((PDBDataSource.count_amino_acids s : ℤ) = min_length →
      PDBDataSource.validate_structure fetch protein_id max_resolution
          min_length max_length
        = (true, .info res (PDBDataSource.count_amino_acids s) false)) ∧
    ((PDBDataSource.count_amino_acids s : ℤ) = max_length →
      PDBDataSource.validate_structure fetch protein_id max_resolution
          min_length max_length
        = (true, .info res (PDBDataSource.count_amino_acids s) false)) ∧
    ((PDBDataSource.count_amino_acids s : ℤ) = min_length - 1 →
      PDBDataSource.validate_structure fetch protein_id max_resolution
          min_length max_length
        = (false, .reason ("Too short: " ++
            toString (PDBDataSource.count_amino_acids s) ++ " < " ++
            toString min_length)) ∧
      strContains ("Too short: " ++
        toString (PDBDataSource.count_amino_acids s) ++ " < " ++
        toString min_length) "Too short: ") ∧
    ((PDBDataSource.count_amino_acids s : ℤ) = max_length + 1 →
      PDBDataSource.validate_structure fetch protein_id max_resolution
          min_length max_length
        = (false, .reason ("Too long: " ++
            toString (PDBDataSource.count_amino_acids s) ++ " > " ++
            toString max_length)) ∧
      strContains ("Too long: " ++
        toString (PDBDataSource.count_amino_acids s) ++ " > " ++
        toString max_length) "Too long: ") := by
  have hval := validate_structure_of_res hs hres max_resolution min_length
    max_length
  rw [hval]
  refine ⟨?_, ?_, ?_, ?_⟩
  · intro hc
    rw [if_neg hok, if_neg (by omega), if_neg (by omega)]
  · intro hc
    rw [if_neg hok, if_neg (by omega), if_neg (by omega)]
  · intro hc
    rw [if_neg hok, if_pos (by omega)]
    exact ⟨rfl, "",
      toString (PDBDataSource.count_amino_acids s) ++ (" < " ++
        toString min_length), by simp [String.append_assoc]⟩
  · intro hc
    rw [if_neg hok, if_neg (by omega), if_pos (by omega)]
    exact ⟨rfl, "",
      toString (PDBDataSource.count_amino_acids s) ++ (" > " ++
        toString max_length), by simp [String.append_assoc]⟩

/-- Witness for C6 at concrete inputs: counts of exactly `min_length`,
exactly `max_length`, `min_length - 1`, and `max_length + 1`. -/
theorem length_boundary_witness :
    PDBDataSource.validate_structure demo_fetch "1lyz" 2 60 300
      = (true, .info 2 60 false) ∧
    PDBDataSource.validate_structure demo_fetch "1lyz" 2 50 60
      = (true, .info 2 60 false) ∧
    PDBDataSource.validate_structure demo_fetch "1lyz" 2 61 300
      = (false, .reason ("Too short: " ++ toString (60 : ℕ) ++ " < " ++
          toString (61 : ℤ))) ∧
    PDBDataSource.validate_structure demo_fetch "1lyz" 2 50 59
      = (false, .reason ("Too long: " ++ toString (60 : ℕ) ++ " > " ++
          toString (59 : ℤ))) := by
  refine ⟨?_, ?_, ?_, ?_⟩
  · exact (length_boundary demo_fetch "1lyz" demo_structure 2 2 60 300 rfl rfl
      (lt_irrefl 2) (by decide)).1 (by decide)
  · exact (length_boundary demo_fetch "1lyz" demo_structure 2 2 50 60 rfl rfl
      (lt_irrefl 2) (by decide)).2.1 (by decide)
  · exact ((length_boundary demo_fetch "1lyz" demo_structure 2 2 61 300 rfl rfl
      (lt_irrefl 2) (by decide)).2.2.1 (by decide)).1
  · exact ((length_boundary demo_fetch "1lyz" demo_structure 2 2 50 59 rfl rfl
      (lt_irrefl 2) (by decide)).2.2.2 (by decide)).1

/-- C9: ids are normalized to lowercase before any lookup, storage or
cache-path construction: `get_structure` keys its cache/fetch pipeline
by the lowercased id, `add_protein` behaves identically on an id and on
its lowercased form (so `add_protein "1LYZ"` and `add_protein "1lyz"`
refer to the same registry key), and after any sequence of
`add_protein` calls on a registry whose keys are lowercase, every key
is still a lowercase string. -/
theorem lowercase_normalization :
    (∀ (fetch : String → Except String StructureModel) (protein_id : String),
      PDBDataSource.get_structure fetch protein_id
        = PDBDataSource.get_structure fetch protein_id.toLower) ∧
    (∀ (ds : DataSource) (crit : SelectionCriteria) (r : Registry)
        (protein_id now : String),
      ProteinDatasetRegistry.add_protein ds crit r protein_id now
        = ProteinDatasetRegistry.add_protein ds crit r protein_id.toLower now) ∧
    (∀ (ds : DataSource) (crit : SelectionCriteria) (r : Registry)
        (ids : List String) (now : String),
      (∀ k ∈ rkeys r, k.toLower = k) →
      ∀ k ∈ rkeys (ProteinDatasetRegistry.add_batch ds crit r ids now),
        k.toLower = k) := by
  refine ⟨?_, ?_, ?_⟩
  · intro fetch protein_id
    unfold PDBDataSource.get_structure
    rw [string_toLower_idem]
  · intro ds crit r protein_id now
    unfold ProteinDatasetRegistry.add_protein
    rw [string_toLower_idem]
  · intro ds crit r ids now h k hk
    exact ProteinDatasetRegistry.add_batch_keys_lower ds crit now ids r h k hk

/-- Witness for C9 at concrete inputs. -/
theorem lowercase_normalization_witness :
    ProteinDatasetRegistry.add_protein demo_source default_selection_criteria
        [] "1LYZ" "t"
      = ProteinDatasetRegistry.add_protein demo_source
          default_selection_criteria [] "1LYZ".toLower "t" ∧
    "1LYZ".toLower.toLower = "1LYZ".toLower :=
  ⟨lowercase_normalization.2.1 demo_source default_selection_criteria []
     "1LYZ" "t",
   lowercase_normalization.2.2 demo_source default_selection_criteria []
     ["1LYZ"] "t" (by simp [rkeys]) "1LYZ".toLower (List.Mem.head _)⟩

/-- C7: `save_registry` followed by constructing a fresh registry
against the same backing file — which runs `load_registry` on the file
contents the save wrote — reproduces an equal mapping of evaluation
records. -/
theorem save_load_roundtrip (r : Registry) :
    ProteinDatasetRegistry.load_registry
        (some (ProteinDatasetRegistry.save_registry r)) = some r := by
  unfold ProteinDatasetRegistry.load_registry
    ProteinDatasetRegistry.save_registry registry_of_json
  exact registry_entries_roundtrip r

/-- C4 counterexample: two criteria records differing only in
`require_ec` (the spec's require_function_annotation field) produce
identical evaluations, and with `require_ec = true` a structure with no
function annotation (`has_ec_number = false` in its validation info)
still passes — so the pass/fail outcome does not depend on all four
criteria fields. -/
theorem criteria_require_ec_ignored :
    ProteinDatasetRegistry.add_protein demo_source
        ⟨mkRat 5 2, 50, 300, true⟩ [] "1lyz" "t"
      = ProteinDatasetRegistry.add_protein demo_source
          ⟨mkRat 5 2, 50, 300, false⟩ [] "1lyz" "t" ∧
    (ProteinDatasetRegistry.add_protein demo_source
        ⟨mkRat 5 2, 50, 300, true⟩ [] "1lyz" "t").1.meets_criteria = true ∧
    (ProteinDatasetRegistry.add_protein demo_source
        ⟨mkRat 5 2, 50, 300, true⟩ [] "1lyz" "t").1.validation_info
      = some (.info 2 60 false) :=
  ⟨rfl, rfl, rfl⟩

/-- C4 amended: the three numeric criteria fields (`max_resolution`,
`min_length`, `max_length`) are the ones applied, uniformly, to every
evaluation — `add_protein` passes exactly them to each validation call —
while `require_ec` is never consulted: criteria records agreeing on the
three numeric fields yield identical evaluations for every data source,
registry state, id and timestamp. -/
theorem criteria_numeric_fields_decide (ds : DataSource)
    (c1 c2 : SelectionCriteria) (r : Registry) (protein_id0 now : String)
    (h1 : c1.max_resolution = c2.max_resolution)
    (h2 : c1.min_length = c2.min_length)
    (h3 : c1.max_length = c2.max_length) :
    ProteinDatasetRegistry.add_protein ds c1 r protein_id0 now
      = ProteinDatasetRegistry.add_protein ds c2 r protein_id0 now := by
  unfold ProteinDatasetRegistry.add_protein
  rw [h1, h2, h3]

/-- Witness for the amended C4 at concrete inputs. -/
theorem criteria_numeric_fields_decide_witness :
    ProteinDatasetRegistry.add_protein demo_source
        ⟨mkRat 5 2, 50, 300, true⟩ [] "1tim" "t"
      = ProteinDatasetRegistry.add_protein demo_source
          ⟨mkRat 5 2, 50, 300, false⟩ [] "1tim" "t" :=
  criteria_numeric_fields_decide demo_source ⟨mkRat 5 2, 50, 300, true⟩
    ⟨mkRat 5 2, 50, 300, false⟩ [] "1tim" "t" rfl rfl rfl

/-- C8 counterexample: on the exception path `add_protein` stores a
record with no `validation_info` and no `function_info` key — the
record stored (and returned) for an id whose fetch raises is
`{protein_id, meets_criteria: false, error, evaluation_date}` — so the
two info fields are not present in every stored record. -/
theorem evaluation_shape_refuted :
    rlookup (ProteinDatasetRegistry.add_protein demo_source_err
        default_selection_criteria [] "9bad" "t").2 "9bad".toLower
      = some (ProteinDatasetRegistry.add_protein demo_source_err
          default_selection_criteria [] "9bad" "t").1 ∧
    (ProteinDatasetRegistry.add_protein demo_source_err
        default_selection_criteria [] "9bad" "t").1.validation_info = none ∧
    (ProteinDatasetRegistry.add_protein demo_source_err
        default_selection_criteria [] "9bad" "t").1.function_info = none ∧
    (ProteinDatasetRegistry.add_protein demo_source_err
        default_selection_criteria [] "9bad" "t").1.error
      = some "Failed to download PDB: 9bad" :=
  ⟨ProteinDatasetRegistry.add_protein_lookup demo_source_err
     default_selection_criteria [] "9bad" "t", rfl, rfl, rfl⟩

/-- C8 amended: every record stored by `add_protein` (into a registry
whose records already have one of the two shapes) has either the
normal-path shape — `validation_info` and `function_info` present, no
`error` key — or the exception-path shape — `error` present,
`meets_criteria = false`, and both info keys absent; `protein_id`,
`meets_criteria` and `evaluation_date` are fields of every record. -/
theorem stored_evaluation_shape (ds : DataSource) (crit : SelectionCriteria)
    (r : Registry) (protein_id0 now : String)
    (hr : ∀ p ∈ r, EvaluationShape p.2) :
    ∀ p ∈ (ProteinDatasetRegistry.add_protein ds crit r protein_id0 now).2,
      EvaluationShape p.2 := by
  intro p hp
  rcases ProteinDatasetRegistry.add_protein_snd_cases ds crit r protein_id0 now
    with h | ⟨hn, h⟩
  · rw [h] at hp
    exact hr p hp
  · rw [h] at hp
    rcases List.mem_append.mp hp with h1 | h1
    · exact hr p h1
    · have h2 : p = (protein_id0.toLower,
          (ProteinDatasetRegistry.add_protein ds crit r protein_id0 now).1) := by
        simpa using h1
      subst h2
      rcases ProteinDatasetRegistry.add_protein_fst_shape ds crit r protein_id0
          now hn with ⟨b, vi, fi, hshape⟩ | ⟨msg, hshape⟩
      · rw [hshape]
        exact Or.inl ⟨rfl, rfl, rfl⟩
      · rw [hshape]
        exact Or.inr ⟨rfl, rfl, rfl, rfl⟩

/-- Witness for the amended C8 at a concrete input. -/
theorem stored_evaluation_shape_witness :
    EvaluationShape (ProteinDatasetRegistry.add_protein demo_source
        default_selection_criteria [] "1lyz" "t").1 :=
  stored_evaluation_shape demo_source default_selection_criteria [] "1lyz" "t"
    (by simp)
    ("1lyz".toLower, (ProteinDatasetRegistry.add_protein demo_source
        default_selection_criteria [] "1lyz" "t").1)
    (List.Mem.head _)
